import Mathlib

/-!
# AEPython plug-in shim

A shallow embedding of `AEPython/AEPython/AEPython.cpp`: the two host callbacks
(`UpdateMenuHook`, `CommandHook`), the bootstrap routine (`GetPluginDir`, `InitPython`)
and the plug-in entry point (`EntryPointFunc`).

Everything the file calls but does not define (the host SDK suites, the interpreter
subsystem declared in `PythonInstance.h`, the Win32 loader) is an external collaborator.
It is represented by a `Host` record of state-passing functions over an arbitrary world
type, so every theorem holds for every behaviour of those collaborators.  Each external
call is appended, with its arguments and its answer, to a trace kept in the machine state.
-/

set_option linter.unusedVariables false

namespace AEPython

/-! ## Scalar types -/

/-- SDK error code (`A_Err`, a 32-bit signed integer). -/
abbrev A_Err := Int

/-- The success code `A_Err_NONE`. -/
def A_Err_NONE : A_Err := 0

/-- SDK boolean (`A_Boolean`, a character-sized integer). -/
abbrev A_Boolean := Nat

/-- The SDK constant `TRUE`. -/
def TRUE : A_Boolean := 1

/-- The SDK constant `FALSE`. -/
def FALSE : A_Boolean := 0

/-- Command handle (`AEGP_Command`, a 32-bit signed integer). -/
abbrev AEGP_Command := Int

/-- Plug-in identifier (`AEGP_PluginID`, a 32-bit signed integer). -/
abbrev AEGP_PluginID := Int

/-- An address; `0` is the null pointer. -/
abbrev Ptr := Nat

/-- Implicit C++ conversion from `bool` to `A_Boolean`. -/
def boolToA_Boolean (b : Bool) : A_Boolean := if b then TRUE else FALSE

/-- The value of `std::string::npos` on the 64-bit target the plug-in is built for. -/
def npos : Nat := 2 ^ 64 - 1

/-- The two callbacks whose addresses are handed to the host. -/
inductive HookFn where
  | CommandHook
  | UpdateMenuHook
  deriving DecidableEq, Repr

/-! ## External calls -/

/-- One external call made by the plug-in, with its arguments and what it answered. -/
inductive Event where
  | isPythonWindowVisible (ret : Bool)
  | isScriptLibraryVisible (ret : Bool)
  | togglePythonWindow
  | toggleScriptLibrary
  | init (my_id : AEGP_PluginID) (sP : Ptr)
  | AEGP_EnableCommand (command : AEGP_Command) (ret : A_Err)
  | AEGP_CheckMarkMenuCommand (command : AEGP_Command) (checkB : A_Boolean) (ret : A_Err)
  | AEGP_GetUniqueCommand (unique_command : AEGP_Command) (ret : A_Err)
  | AEGP_InsertMenuCommand (command : AEGP_Command) (nameZ : String) (menu_id : Int)
      (after_itemL : Int) (ret : A_Err)
  | AEGP_RegisterCommandHook (aegp_plugin_id : AEGP_PluginID) (hook_priority : Int)
      (command : AEGP_Command) (hook : HookFn) (refconP : Ptr) (ret : A_Err)
  | AEGP_RegisterUpdateMenuHook (aegp_plugin_id : AEGP_PluginID) (hook : HookFn)
      (refconP : Ptr) (ret : A_Err)
  | GetModuleHandle (lpModuleName : String) (ret : Ptr)
  | GetModuleFileName (hModule : Ptr) (lpFilename : String)
  | getenv (varname : String) (ret : Option String)
  | _putenv_s (varname : String) (value : String)
  | LoadLibrary (lpLibFileName : String)
  deriving DecidableEq, Repr

/-- Behaviour of everything outside the file, over a world state `W`.
`AEGP_GetUniqueCommand` receives the current content of the out-parameter and answers
the content it leaves there; `GetModuleFileName` answers the C string left in the buffer
(the empty string when it wrote nothing). -/
structure Host (W : Type) where
  isPythonWindowVisible : W → Bool × W
  isScriptLibraryVisible : W → Bool × W
  togglePythonWindow : W → W
  toggleScriptLibrary : W → W
  init : AEGP_PluginID → Ptr → W → W
  AEGP_EnableCommand : AEGP_Command → W → A_Err × W
  AEGP_CheckMarkMenuCommand : AEGP_Command → A_Boolean → W → A_Err × W
  AEGP_GetUniqueCommand : AEGP_Command → W → (AEGP_Command × A_Err) × W
  AEGP_InsertMenuCommand : AEGP_Command → String → Int → Int → W → A_Err × W
  AEGP_RegisterCommandHook :
    AEGP_PluginID → Int → AEGP_Command → HookFn → Ptr → W → A_Err × W
  AEGP_RegisterUpdateMenuHook : AEGP_PluginID → HookFn → Ptr → W → A_Err × W
  GetModuleHandle : String → W → Ptr × W
  GetModuleFileName : Ptr → W → String × W
  LoadLibrary : String → W → W

/-- Machine state: the four file-level globals, the process environment, the state of the
outside world and the trace of external calls made so far. -/
structure Sys (W : Type) where
  S_python_cmd : AEGP_Command
  S_script_library_cmd : AEGP_Command
  S_my_id : AEGP_PluginID
  sP : Ptr
  env : String → Option String
  world : W
  trace : List Event

variable {W : Type}

/-- Record an external call and the world it left behind. -/
def Sys.emit (s : Sys W) (w : W) (e : Event) : Sys W :=
  { s with world := w, trace := s.trace ++ [e] }

/-- Call `AEPython::isPythonWindowVisible()`. -/
def Sys.isPythonWindowVisible (H : Host W) (s : Sys W) : Bool × Sys W :=
  let r := H.isPythonWindowVisible s.world
  (r.1, s.emit r.2 (Event.isPythonWindowVisible r.1))

/-- Call `AEPython::isScriptLibraryVisible()`. -/
def Sys.isScriptLibraryVisible (H : Host W) (s : Sys W) : Bool × Sys W :=
  let r := H.isScriptLibraryVisible s.world
  (r.1, s.emit r.2 (Event.isScriptLibraryVisible r.1))

/-- Call `AEPython::togglePythonWindow()`. -/
def Sys.togglePythonWindow (H : Host W) (s : Sys W) : Sys W :=
  s.emit (H.togglePythonWindow s.world) Event.togglePythonWindow

/-- Call `AEPython::toggleScriptLibrary()`. -/
def Sys.toggleScriptLibrary (H : Host W) (s : Sys W) : Sys W :=
  s.emit (H.toggleScriptLibrary s.world) Event.toggleScriptLibrary

/-- Call `AEPython::init(_my_id, _sP)`. -/
def Sys.init (H : Host W) (my_id : AEGP_PluginID) (p : Ptr) (s : Sys W) : Sys W :=
  s.emit (H.init my_id p s.world) (Event.init my_id p)

/-- Call `CommandSuite1()->AEGP_EnableCommand(command)`. -/
def Sys.AEGP_EnableCommand (H : Host W) (command : AEGP_Command) (s : Sys W) :
    A_Err × Sys W :=
  let r := H.AEGP_EnableCommand command s.world
  (r.1, s.emit r.2 (Event.AEGP_EnableCommand command r.1))

/-- Call `CommandSuite1()->AEGP_CheckMarkMenuCommand(command, checkB)`. -/
def Sys.AEGP_CheckMarkMenuCommand (H : Host W) (command : AEGP_Command)
    (checkB : A_Boolean) (s : Sys W) : A_Err × Sys W :=
  let r := H.AEGP_CheckMarkMenuCommand command checkB s.world
  (r.1, s.emit r.2 (Event.AEGP_CheckMarkMenuCommand command checkB r.1))

/-- Call `CommandSuite1()->AEGP_GetUniqueCommand(&x)` where `x` currently holds `old`;
answers the new content of `x` and the error code. -/
def Sys.AEGP_GetUniqueCommand (H : Host W) (old : AEGP_Command) (s : Sys W) :
    (AEGP_Command × A_Err) × Sys W :=
  let r := H.AEGP_GetUniqueCommand old s.world
  (r.1, s.emit r.2 (Event.AEGP_GetUniqueCommand r.1.1 r.1.2))

/-- Call `CommandSuite1()->AEGP_InsertMenuCommand(command, nameZ, menu_id, after_itemL)`. -/
def Sys.AEGP_InsertMenuCommand (H : Host W) (command : AEGP_Command) (nameZ : String)
    (menu_id after_itemL : Int) (s : Sys W) : A_Err × Sys W :=
  let r := H.AEGP_InsertMenuCommand command nameZ menu_id after_itemL s.world
  (r.1, s.emit r.2 (Event.AEGP_InsertMenuCommand command nameZ menu_id after_itemL r.1))

/-- Call `RegisterSuite5()->AEGP_RegisterCommandHook(...)`. -/
def Sys.AEGP_RegisterCommandHook (H : Host W) (id : AEGP_PluginID) (hook_priority : Int)
    (command : AEGP_Command) (hook : HookFn) (refconP : Ptr) (s : Sys W) : A_Err × Sys W :=
  let r := H.AEGP_RegisterCommandHook id hook_priority command hook refconP s.world
  (r.1, s.emit r.2
    (Event.AEGP_RegisterCommandHook id hook_priority command hook refconP r.1))

/-- Call `RegisterSuite5()->AEGP_RegisterUpdateMenuHook(...)`. -/
def Sys.AEGP_RegisterUpdateMenuHook (H : Host W) (id : AEGP_PluginID) (hook : HookFn)
    (refconP : Ptr) (s : Sys W) : A_Err × Sys W :=
  let r := H.AEGP_RegisterUpdateMenuHook id hook refconP s.world
  (r.1, s.emit r.2 (Event.AEGP_RegisterUpdateMenuHook id hook refconP r.1))

/-- Call `GetModuleHandle(name)`. -/
def Sys.GetModuleHandle (H : Host W) (name : String) (s : Sys W) : Ptr × Sys W :=
  let r := H.GetModuleHandle name s.world
  (r.1, s.emit r.2 (Event.GetModuleHandle name r.1))

/-- Call `GetModuleFileName(hModule, charPath, _MAX_PATH)` on a buffer initialised to the
empty string; answers the C string the buffer holds afterwards. -/
def Sys.GetModuleFileName (H : Host W) (hModule : Ptr) (s : Sys W) : String × Sys W :=
  let r := H.GetModuleFileName hModule s.world
  (r.1, s.emit r.2 (Event.GetModuleFileName hModule r.1))

/-- Call `LoadLibrary(file)`; the returned handle is discarded by the caller. -/
def Sys.LoadLibrary (H : Host W) (file : String) (s : Sys W) : Sys W :=
  s.emit (H.LoadLibrary file s.world) (Event.LoadLibrary file)

/-- Read an environment variable: `getenv(name)`, a null pointer being `none`. -/
def Sys.getenv (name : String) (s : Sys W) : Option String × Sys W :=
  (s.env name, s.emit s.world (Event.getenv name (s.env name)))

/-- Write an environment variable: `_putenv_s(name, value)`.  An empty value removes the
variable.  The return code is ignored by the caller. -/
def Sys._putenv_s (name value : String) (s : Sys W) : Sys W :=
  { s.emit s.world (Event._putenv_s name value) with
    env := fun n => if n = name then (if value = "" then none else some value) else s.env n }

/-! ## String primitives of `std::string` -/

/-- Scan downwards from index `i - 1` for the character `c`; `npos` when absent. -/
def find_last_of_from (s : List Char) (c : Char) : Nat → Nat
  | 0 => npos
  | i + 1 => if s.get? i = some c then i else find_last_of_from s c i

/-- The member `std::string::find_last_of(char)`: index of the last occurrence of `c`,
or `npos`. -/
def find_last_of (s : String) (c : Char) : Nat :=
  find_last_of_from s.data c s.length

/-- The member `std::string::substr(pos, count)`: `none` is the `out_of_range` exception
thrown when `pos` exceeds the size; otherwise `min count (size - pos)` characters
starting at `pos`. -/
def substr (s : String) (pos count : Nat) : Option String :=
  if pos > s.length then none
  else some ⟨(s.data.drop pos).take (min count (s.length - pos))⟩

/-! ## The functions of `AEPython.cpp` -/

/-- The menu-update callback `UpdateMenuHook`. -/
def UpdateMenuHook (H : Host W) (plugin_refconPV refconPV : Ptr) (active_window : Int)
    (s : Sys W) : A_Err × Sys W :=
  let err : A_Err := A_Err_NONE
  let (err, s) :=
    if s.S_python_cmd ≠ 0 then
      let (isVisible, s) := s.isPythonWindowVisible H
      let (err, s) := s.AEGP_EnableCommand H s.S_python_cmd
      let (err, s) :=
        s.AEGP_CheckMarkMenuCommand H s.S_python_cmd (boolToA_Boolean isVisible)
      (err, s)
    else (err, s)
  let (err, s) :=
    if s.S_script_library_cmd ≠ 0 then
      let (isVisible, s) := s.isScriptLibraryVisible H
      let (err, s) := s.AEGP_EnableCommand H s.S_script_library_cmd
      let (err, s) :=
        s.AEGP_CheckMarkMenuCommand H s.S_script_library_cmd (boolToA_Boolean isVisible)
      (err, s)
    else (err, s)
  (err, s)

/-- The command-dispatch callback `CommandHook`.  The argument `handledPB` is the value
found in `*handledPB` on entry; the result carries the returned code, the value left in
`*handledPB`, and the new machine state. -/
def CommandHook (H : Host W) (plugin_refconPV refconPV : Ptr) (command : AEGP_Command)
    (hook_priority : Int) (already_handledB : A_Boolean) (handledPB : A_Boolean)
    (s : Sys W) : (A_Err × A_Boolean) × Sys W :=
  let err : A_Err := A_Err_NONE
  let handledPB := FALSE
  let (handledPB, s) :=
    if command = s.S_python_cmd then
      let s := s.togglePythonWindow H
      let handledPB := TRUE
      (handledPB, s)
    else if command = s.S_script_library_cmd then
      let s := s.toggleScriptLibrary H
      let handledPB := TRUE
      (handledPB, s)
    else (handledPB, s)
  ((err, handledPB), s)

/-- The routine `GetPluginDir`: `strPath.substr(0, strPath.find_last_of('\\'))` of the
module path; `none` is an exception escaping `substr`. -/
def GetPluginDir (H : Host W) (s : Sys W) : Option (String × Sys W) :=
  let (hModule, s) := s.GetModuleHandle H "AEPython.aex"
  let (charPath, s) := s.GetModuleFileName H hModule
  let strPath : String := charPath
  match substr strPath 0 (find_last_of strPath '\\') with
  | none => none
  | some dir => some (dir, s)

/-- The module path read by `GetPluginDir`: the C string that `GetModuleFileName` leaves
in `charPath` for the handle `GetModuleHandle("AEPython.aex")` answered. -/
def modulePath (H : Host W) (s : Sys W) : String :=
  (H.GetModuleFileName (H.GetModuleHandle "AEPython.aex" s.world).1
    (H.GetModuleHandle "AEPython.aex" s.world).2).1

/-- The bootstrap routine `InitPython`.  The result `none` stands for an execution with no
defined outcome: an exception escaping `substr`, or `std::string` being constructed from
the null pointer that `getenv` answers when `PATH` is not set. -/
def InitPython (H : Host W) (s : Sys W) : Option (Sys W) :=
  match GetPluginDir H s with
  | none => none
  | some (plugin_dir, s) =>
    let (r, s) := s.getenv "PATH"
    match r with
    | none => none
    | some path =>
      let path := plugin_dir ++ "\\python-3.14.2-embed-amd64;" ++ path
      let s := s._putenv_s "PATH" path
      let dll := plugin_dir ++ "\\AEPython.dll"
      let s := s.LoadLibrary H dll
      let s := s.init H s.S_my_id s.sP
      some s

/-- A host whose world is a counter of the calls answered so far.  Both windows are
reported hidden, `AEGP_EnableCommand` fails with code `enableErr`, every other SDK call
succeeds, fresh command handles are `100 + counter`, and the module is found at
`modulePath`. -/
def testHost (enableErr : A_Err) (modulePath : String) : Host Nat where
  isPythonWindowVisible := fun w => (false, w + 1)
  isScriptLibraryVisible := fun w => (false, w + 1)
  togglePythonWindow := fun w => w + 1
  toggleScriptLibrary := fun w => w + 1
  init := fun _ _ w => w + 1
  AEGP_EnableCommand := fun _ w => (enableErr, w + 1)
  AEGP_CheckMarkMenuCommand := fun _ _ w => (0, w + 1)
  AEGP_GetUniqueCommand := fun _ w => ((100 + (w : Int), 0), w + 1)
  AEGP_InsertMenuCommand := fun _ _ _ _ w => (0, w + 1)
  AEGP_RegisterCommandHook := fun _ _ _ _ _ w => (0, w + 1)
  AEGP_RegisterUpdateMenuHook := fun _ _ _ w => (0, w + 1)
  GetModuleHandle := fun _ w => (4096, w + 1)
  GetModuleFileName := fun _ w => (modulePath, w + 1)
  LoadLibrary := fun _ w => w + 1

/-- A machine state with the given command handles, no plug-in id or suite pointer yet,
an environment that holds `path` under `PATH` and nothing else, and an empty trace. -/
def testSys (py sl : AEGP_Command) (path : Option String) : Sys Nat where
  S_python_cmd := py
  S_script_library_cmd := sl
  S_my_id := 0
  sP := 0
  env := fun n => if n = "PATH" then path else none
  world := 0
  trace := []

/-- Whether the trace contains a call `AEGP_EnableCommand(c)`. -/
def enablesCommand (t : List Event) (c : AEGP_Command) : Bool :=
  t.any fun e =>
    match e with
    | Event.AEGP_EnableCommand c' _ => decide (c' = c)
    | _ => false

/-- Scanning down from `i` reaches `k` unchanged when no index in between holds `c`. -/
theorem find_last_of_from_skip (s : List Char) (c : Char) (k : Nat) :
    ∀ i, k ≤ i → (∀ j, k ≤ j → j < i → s.get? j ≠ some c) →
      find_last_of_from s c i = find_last_of_from s c k := by
  intro i hki
  induction i with
  | zero =>
    intro _
    have : k = 0 := by omega
    subst this; rfl
  | succ i ih =>
    intro h
    by_cases hk : k = i + 1
    · subst hk; rfl
    · have hne : s.get? i ≠ some c := h i (by omega) (by omega)
      rw [find_last_of_from, if_neg hne]
      exact ih (by omega) (fun j h1 h2 => h j h1 (by omega))

/-- A character that does not occur is reported as `npos`. -/
theorem find_last_of_from_absent (s : List Char) (c : Char) (hc : c ∉ s) (i : Nat) :
    find_last_of_from s c i = npos := by
  induction i with
  | zero => rfl
  | succ i ih =>
    have hne : s.get? i ≠ some c := by
      intro h
      exact hc (List.get?_mem h)
    rw [find_last_of_from, if_neg hne, ih]

/-- The last occurrence of `c` in `d ++ c :: f`, when `f` is free of `c`, is at index
`d.length`. -/
theorem find_last_of_from_last (d f : List Char) (c : Char) (hf : c ∉ f) :
    find_last_of_from (d ++ c :: f) c (d ++ c :: f).length = d.length := by
  rw [find_last_of_from_skip (d ++ c :: f) c (d.length + 1) _ (by simp)]
  · have hk : (d ++ c :: f).get? d.length = some c := by
      rw [List.get?_eq_getElem?, List.getElem?_append_right (le_refl _)]
      simp
    rw [find_last_of_from, if_pos hk]
  · intro j h1 h2 h
    apply hf
    have : (d ++ c :: f).get? j = f.get? (j - d.length - 1) := by
      simp only [List.get?_eq_getElem?]
      rw [List.getElem?_append_right (by omega)]
      obtain ⟨m, hm⟩ : ∃ m, j - d.length = m + 1 := ⟨j - d.length - 1, by omega⟩
      rw [hm]
      simp
    rw [this] at h
    exact List.get?_mem h

/-- From position zero `substr` never throws. -/
theorem substr_zero (s : String) (count : Nat) :
    substr s 0 count = some ⟨s.data.take (min count s.length)⟩ := by
  simp [substr]

/-- The directory computed from a path `d ++ "\\" ++ f` whose last component `f` holds no
backslash is `d`. -/
theorem substr_find_last_of_split (d f : String) (hf : '\\' ∉ f.data) :
    substr (d ++ "\\" ++ f) 0 (find_last_of (d ++ "\\" ++ f) '\\') = some d := by
  have hdata : (d ++ "\\" ++ f).data = d.data ++ '\\' :: f.data := by
    simp [String.data_append]
  have hfind : find_last_of (d ++ "\\" ++ f) '\\' = d.data.length := by
    unfold find_last_of
    have hlen : (d ++ "\\" ++ f).length = (d.data ++ '\\' :: f.data).length := by
      rw [← hdata]; rfl
    rw [hlen, hdata]
    exact find_last_of_from_last d.data f.data '\\' hf
  rw [substr_zero, hfind]
  have hlen2 : (d ++ "\\" ++ f).length = d.data.length + (1 + f.data.length) := by
    show (d ++ "\\" ++ f).data.length = _
    rw [hdata]
    simp only [List.length_append, List.length_cons]
    omega
  congr 1
  apply String.ext
  show List.take _ (d ++ "\\" ++ f).data = d.data
  rw [hlen2, hdata, Nat.min_eq_left (Nat.le_add_right _ _)]
  simp

/-- The directory computed from a path without a backslash is the path itself. -/
theorem substr_find_last_of_absent (path : String) (hno : '\\' ∉ path.data)
    (hlen : path.length ≤ npos) :
    substr path 0 (find_last_of path '\\') = some path := by
  have hfind : find_last_of path '\\' = npos :=
    find_last_of_from_absent path.data '\\' hno path.length
  rw [substr_zero, hfind, Nat.min_eq_right hlen]
  congr 1
  apply String.ext
  show List.take path.data.length path.data = path.data
  simp

/-- The value written to `PATH` is never the empty string. -/
theorem path_value_ne_empty (d p : String) :
    d ++ "\\python-3.14.2-embed-amd64;" ++ p ≠ "" := by
  intro h
  have h2 := congrArg String.length h
  rw [String.length_append, String.length_append] at h2
  have h3 : ("\\python-3.14.2-embed-amd64;" : String).length = 27 := by decide
  have h4 : ("" : String).length = 0 := rfl
  omega

/-! ## Lemmas on the bootstrap routine -/

/-- `GetPluginDir` always returns: it makes the two loader calls, leaves globals and
environment alone, and answers whatever `substr` computes from the module path. -/
theorem GetPluginDir_run (H : Host W) (s : Sys W) :
    ∃ dir s1 h,
      substr (modulePath H s) 0 (find_last_of (modulePath H s) '\\') = some dir ∧
      GetPluginDir H s = some (dir, s1) ∧
      s1.trace = s.trace ++ [Event.GetModuleHandle "AEPython.aex" h,
                             Event.GetModuleFileName h (modulePath H s)] ∧
      s1.env = s.env ∧ s1.S_my_id = s.S_my_id ∧ s1.sP = s.sP ∧
      s1.S_python_cmd = s.S_python_cmd ∧
      s1.S_script_library_cmd = s.S_script_library_cmd := by
  refine ⟨_, ((s.GetModuleHandle H "AEPython.aex").2.GetModuleFileName H
      (s.GetModuleHandle H "AEPython.aex").1).2,
    (H.GetModuleHandle "AEPython.aex" s.world).1, substr_zero _ _, ?_, ?_⟩
  · simp only [GetPluginDir, Sys.GetModuleHandle, Sys.GetModuleFileName, modulePath,
      substr_zero, Sys.emit]
  · simp [Sys.GetModuleHandle, Sys.GetModuleFileName, Sys.emit, modulePath]

/-- With `PATH` set, `InitPython` returns; its effects are stated relative to the result
of `GetPluginDir`. -/
theorem InitPython_run (H : Host W) (s : Sys W) (p : String)
    (hPATH : s.env "PATH" = some p) :
    ∃ d s1 s2,
      GetPluginDir H s = some (d, s1) ∧
      InitPython H s = some s2 ∧
      s2.env "PATH" = some (d ++ "\\python-3.14.2-embed-amd64;" ++ p) ∧
      s2.trace = s1.trace ++
        [Event.getenv "PATH" (some p),
         Event._putenv_s "PATH" (d ++ "\\python-3.14.2-embed-amd64;" ++ p),
         Event.LoadLibrary (d ++ "\\AEPython.dll"),
         Event.init s.S_my_id s.sP] ∧
      s2.S_my_id = s.S_my_id ∧ s2.sP = s.sP ∧
      s2.S_python_cmd = s.S_python_cmd ∧
      s2.S_script_library_cmd = s.S_script_library_cmd := by
  obtain ⟨d, s1, h, _, hdir, _, henv, hid, hsP, hpy, hsl⟩ := GetPluginDir_run H s
  have hp1 : s1.env "PATH" = some p := by rw [henv]; exact hPATH
  refine ⟨d, s1,
    ((((s1.getenv "PATH").2._putenv_s "PATH"
        (d ++ "\\python-3.14.2-embed-amd64;" ++ p)).LoadLibrary H
        (d ++ "\\AEPython.dll")).init H s1.S_my_id s1.sP), hdir, ?_, ?_⟩
  · simp only [InitPython, hdir, Sys.getenv, hp1]
    rfl
  · simp [Sys.init, Sys.LoadLibrary, Sys._putenv_s, Sys.getenv, Sys.emit,
      path_value_ne_empty, hid, hsP, hpy, hsl, hp1]

/-! ## Lemmas on the entry point -/

/-- Claim C1.  Whatever the command handle, the stored handles, the prior content of
`*handledPB`, `already_handledB` and `hook_priority`: after `CommandHook`, `*handledPB` is
`TRUE` exactly when the command equals one of the two stored handles, and `FALSE`
exactly when it equals neither. -/
theorem CommandHook_handled_iff (H : Host W) (plugin_refconPV refconPV : Ptr)
    (command : AEGP_Command) (hook_priority : Int) (already_handledB handledPB : A_Boolean)
    (s : Sys W) :
    ((CommandHook H plugin_refconPV refconPV command hook_priority already_handledB
        handledPB s).1.2 = TRUE
      ↔ (command = s.S_python_cmd ∨ command = s.S_script_library_cmd)) ∧
    ((CommandHook H plugin_refconPV refconPV command hook_priority already_handledB
        handledPB s).1.2 = FALSE
      ↔ ¬ (command = s.S_python_cmd ∨ command = s.S_script_library_cmd)) := by
  unfold CommandHook
  by_cases h1 : command = s.S_python_cmd
  · simp [h1, TRUE, FALSE]
  · by_cases h2 : command = s.S_script_library_cmd
    · have h3 : ¬ s.S_script_library_cmd = s.S_python_cmd := h2 ▸ h1
      simp [h3, h2, TRUE, FALSE]
    · simp [h1, h2, TRUE, FALSE]

/-- Shape of the calls made by one invocation of `UpdateMenuHook`. -/
theorem UpdateMenuHook_trace (H : Host W) (plugin_refconPV refconPV : Ptr)
    (active_window : Int) (s : Sys W) :
    ∃ py sl : List Event,
      (UpdateMenuHook H plugin_refconPV refconPV active_window s).2.trace
        = s.trace ++ py ++ sl ∧
      ((s.S_python_cmd = 0 ∧ py = []) ∨
       (s.S_python_cmd ≠ 0 ∧ ∃ v e1 e2,
          v = (H.isPythonWindowVisible s.world).1 ∧
          py = [Event.isPythonWindowVisible v,
                Event.AEGP_EnableCommand s.S_python_cmd e1,
                Event.AEGP_CheckMarkMenuCommand s.S_python_cmd (boolToA_Boolean v) e2])) ∧
      ((s.S_script_library_cmd = 0 ∧ sl = []) ∨
       (s.S_script_library_cmd ≠ 0 ∧ ∃ v e1 e2,
          sl = [Event.isScriptLibraryVisible v,
                Event.AEGP_EnableCommand s.S_script_library_cmd e1,
                Event.AEGP_CheckMarkMenuCommand s.S_script_library_cmd
                  (boolToA_Boolean v) e2])) := by
  unfold UpdateMenuHook
  by_cases h1 : s.S_python_cmd = 0 <;> by_cases h2 : s.S_script_library_cmd = 0
  · exact ⟨[], [], by simp [h1, h2], Or.inl ⟨h1, rfl⟩, Or.inl ⟨h2, rfl⟩⟩
  · refine ⟨[], _, ?_, Or.inl ⟨h1, rfl⟩, Or.inr ⟨h2, ?_, ?_, ?_, rfl⟩⟩
    · simp only [h1, h2, ne_eq, not_true_eq_false, not_false_eq_true, if_true, if_false,
        Sys.isScriptLibraryVisible, Sys.AEGP_EnableCommand, Sys.AEGP_CheckMarkMenuCommand,
        Sys.emit, List.append_assoc, List.append_nil, List.cons_append, List.nil_append]
      exact rfl
  · refine ⟨_, [], ?_, Or.inr ⟨h1, _, ?_, ?_, rfl, rfl⟩, Or.inl ⟨h2, rfl⟩⟩
    · simp only [h1, h2, ne_eq, not_true_eq_false, not_false_eq_true, if_true, if_false,
        Sys.isPythonWindowVisible, Sys.AEGP_EnableCommand, Sys.AEGP_CheckMarkMenuCommand,
        Sys.emit, List.append_assoc, List.append_nil, List.cons_append, List.nil_append]
      exact rfl
  · refine ⟨_, _, ?_, Or.inr ⟨h1, _, ?_, ?_, rfl, rfl⟩, Or.inr ⟨h2, ?_, ?_, ?_, rfl⟩⟩
    · simp only [h1, h2, ne_eq, not_true_eq_false, not_false_eq_true, if_true, if_false,
        Sys.isPythonWindowVisible, Sys.isScriptLibraryVisible, Sys.AEGP_EnableCommand,
        Sys.AEGP_CheckMarkMenuCommand, Sys.emit, List.append_assoc, List.append_nil, List.cons_append, List.nil_append]
      exact rfl

/-- Claim C4, as stated, fails: with the Python command registered under handle 1 and the
window reported hidden, the hook still enables the command. -/
theorem UpdateMenuHook_enable_counterexample :
    ¬ (enablesCommand (UpdateMenuHook (testHost 0 "") 0 0 0 (testSys 1 0 none)).2.trace 1
          = true
        ↔ ((testHost 0 "").isPythonWindowVisible (testSys 1 0 none).world).1 = true) := by
  decide

/-- Claim C4, amended.  For a registered command (a non-zero stored handle) every
invocation of `UpdateMenuHook` calls `AEGP_EnableCommand` on its handle, whatever the
host and the interpreter subsystem answer. -/
theorem UpdateMenuHook_enables_registered (H : Host W) (plugin_refconPV refconPV : Ptr)
    (active_window : Int) (s : Sys W) (c : AEGP_Command) (hc : c ≠ 0)
    (hreg : c = s.S_python_cmd ∨ c = s.S_script_library_cmd) :
    ∃ ev : List Event,
      (UpdateMenuHook H plugin_refconPV refconPV active_window s).2.trace = s.trace ++ ev ∧
      enablesCommand ev c = true := by
  obtain ⟨py, sl, htr, hpy, hsl⟩ :=
    UpdateMenuHook_trace H plugin_refconPV refconPV active_window s
  refine ⟨py ++ sl, by rw [htr, List.append_assoc], ?_⟩
  rcases hreg with h | h
  · rcases hpy with ⟨h0, _⟩ | ⟨_, v, e1, e2, _, rfl⟩
    · exact absurd (h.trans h0) hc
    · simp [enablesCommand, h]
  · rcases hsl with ⟨h0, _⟩ | ⟨_, v, e1, e2, rfl⟩
    · exact absurd (h.trans h0) hc
    · simp [enablesCommand, h]

/-- The script-library command, registered under handle 7 and reported hidden, is
enabled by the hook. -/
theorem UpdateMenuHook_enables_registered_witness :
    ∃ ev : List Event,
      (UpdateMenuHook (testHost 0 "") 0 0 0 (testSys 0 7 none)).2.trace
        = (testSys 0 7 none).trace ++ ev ∧
      enablesCommand ev 7 = true :=
  UpdateMenuHook_enables_registered (testHost 0 "") 0 0 0 (testSys 0 7 none) 7
    (by decide) (Or.inr rfl)

/-- Claim C8, evaluated on the code: with the Python command registered under handle 1,
`AEGP_EnableCommand` answering error 5 and `AEGP_CheckMarkMenuCommand` answering
`A_Err_NONE`, the hook returns `A_Err_NONE`; the error of the earlier call is overwritten
by the result of the later one. -/
theorem UpdateMenuHook_drops_enable_error :
    Event.AEGP_EnableCommand 1 5
        ∈ (UpdateMenuHook (testHost 5 "") 0 0 0 (testSys 1 0 none)).2.trace ∧
    (UpdateMenuHook (testHost 5 "") 0 0 0 (testSys 1 0 none)).1 = A_Err_NONE := by
  decide

/-! ## The bootstrap routine -/

/-- Claim C5.  When the module path is `d ++ "\\" ++ f` and `f` holds no backslash,
`GetPluginDir` returns, and returns exactly `d`: appending the backslash and `f` gives the
path back, and `d` is a strict prefix of the path. -/
theorem GetPluginDir_strips_last_component (H : Host W) (s : Sys W) (d f : String)
    (hf : '\\' ∉ f.data) (hpath : modulePath H s = d ++ "\\" ++ f) :
    ∃ s1, GetPluginDir H s = some (d, s1) ∧
      d ++ "\\" ++ f = modulePath H s ∧
      d.data <+: (modulePath H s).data ∧
      d.length < (modulePath H s).length := by
  obtain ⟨dir, s1, h, hsub, hdir, _⟩ := GetPluginDir_run H s
  rw [hpath, substr_find_last_of_split d f hf] at hsub
  obtain rfl : d = dir := by simpa using hsub
  refine ⟨s1, hdir, hpath.symm, ?_, ?_⟩
  · rw [hpath]
    exact ⟨("\\" ++ f).data, by simp [String.data_append]⟩
  · rw [hpath, String.length_append, String.length_append]
    have h1 : ("\\" : String).length = 1 := by decide
    omega

/-- The path of a plug-in installed under `C:\AE\Plug-ins` is cut to that directory. -/
theorem GetPluginDir_strips_last_component_witness :
    ∃ s1, GetPluginDir (testHost 0 "C:\\AE\\Plug-ins\\AEPython.aex") (testSys 0 0 none)
        = some ("C:\\AE\\Plug-ins", s1) ∧
      "C:\\AE\\Plug-ins" ++ "\\" ++ "AEPython.aex"
        = modulePath (testHost 0 "C:\\AE\\Plug-ins\\AEPython.aex") (testSys 0 0 none) ∧
      ("C:\\AE\\Plug-ins" : String).data
        <+: (modulePath (testHost 0 "C:\\AE\\Plug-ins\\AEPython.aex")
              (testSys 0 0 none)).data ∧
      ("C:\\AE\\Plug-ins" : String).length
        < (modulePath (testHost 0 "C:\\AE\\Plug-ins\\AEPython.aex")
              (testSys 0 0 none)).length :=
  GetPluginDir_strips_last_component (testHost 0 "C:\\AE\\Plug-ins\\AEPython.aex")
    (testSys 0 0 none) "C:\\AE\\Plug-ins" "AEPython.aex" (by decide) (by decide)

/-- Claim C6.  With `PATH` set to `p`, `InitPython` returns; for the directory `d` that
`GetPluginDir` answers it leaves `PATH` equal to `d ++ "\\python-3.14.2-embed-amd64;" ++ p`,
and after the calls of `GetPluginDir` it makes, in this order, the read of `PATH`, the
write of that value to `PATH`, `LoadLibrary` on `d ++ "\\AEPython.dll"`, and
`AEPython::init` on the stored plug-in id and suite pointer. -/
theorem InitPython_prepends_PATH (H : Host W) (s : Sys W) (p : String)
    (hPATH : s.env "PATH" = some p) :
    ∃ d s1 s2,
      GetPluginDir H s = some (d, s1) ∧
      InitPython H s = some s2 ∧
      s2.env "PATH" = some (d ++ "\\python-3.14.2-embed-amd64;" ++ p) ∧
      s2.trace = s1.trace ++
        [Event.getenv "PATH" (some p),
         Event._putenv_s "PATH" (d ++ "\\python-3.14.2-embed-amd64;" ++ p),
         Event.LoadLibrary (d ++ "\\AEPython.dll"),
         Event.init s.S_my_id s.sP] := by
  obtain ⟨d, s1, s2, hdir, hinit, henv, htr, _⟩ := InitPython_run H s p hPATH
  exact ⟨d, s1, s2, hdir, hinit, henv, htr⟩

/-- The bootstrap of a plug-in installed under `C:\AE`, with `PATH` being `C:\Windows`. -/
theorem InitPython_prepends_PATH_witness :
    ∃ d s1 s2,
      GetPluginDir (testHost 0 "C:\\AE\\AEPython.aex") (testSys 0 0 (some "C:\\Windows"))
        = some (d, s1) ∧
      InitPython (testHost 0 "C:\\AE\\AEPython.aex") (testSys 0 0 (some "C:\\Windows"))
        = some s2 ∧
      s2.env "PATH" = some (d ++ "\\python-3.14.2-embed-amd64;" ++ "C:\\Windows") ∧
      s2.trace = s1.trace ++
        [Event.getenv "PATH" (some "C:\\Windows"),
         Event._putenv_s "PATH" (d ++ "\\python-3.14.2-embed-amd64;" ++ "C:\\Windows"),
         Event.LoadLibrary (d ++ "\\AEPython.dll"),
         Event.init (testSys 0 0 (some "C:\\Windows")).S_my_id
           (testSys 0 0 (some "C:\\Windows")).sP] :=
  InitPython_prepends_PATH (testHost 0 "C:\\AE\\AEPython.aex")
    (testSys 0 0 (some "C:\\Windows")) "C:\\Windows" rfl

/-- Claim C10.  When the module path holds no backslash (its length being within the
range of `size_t`), `find_last_of` answers `npos` and `GetPluginDir` returns the whole
path; and then, with `PATH` set to
`p`, `InitPython` leaves `PATH` equal to the entry `path ++ "\\python-3.14.2-embed-amd64"`
followed by `";"` and `p`. -/
theorem GetPluginDir_without_backslash (H : Host W) (s : Sys W)
    (hno : '\\' ∉ (modulePath H s).data) (hlen : (modulePath H s).length ≤ npos) :
    find_last_of (modulePath H s) '\\' = npos ∧
    (∃ s1, GetPluginDir H s = some (modulePath H s, s1)) ∧
    ∀ p, s.env "PATH" = some p →
      ∃ s2, InitPython H s = some s2 ∧
        s2.env "PATH"
          = some ((modulePath H s ++ "\\python-3.14.2-embed-amd64") ++ ";" ++ p) := by
  obtain ⟨dir, s1, h, hsub, hdir, _⟩ := GetPluginDir_run H s
  rw [substr_find_last_of_absent _ hno hlen] at hsub
  obtain rfl : modulePath H s = dir := by simpa using hsub
  refine ⟨find_last_of_from_absent _ _ hno _, ⟨s1, hdir⟩, fun p hPATH => ?_⟩
  obtain ⟨d, s1', s2, hdir', hinit, henv, _⟩ := InitPython_run H s p hPATH
  rw [hdir] at hdir'
  obtain ⟨rfl, -⟩ : modulePath H s = d ∧ s1 = s1' := by simpa using hdir'
  refine ⟨s2, hinit, ?_⟩
  rw [henv]
  have hlit : ("\\python-3.14.2-embed-amd64;" : String)
      = "\\python-3.14.2-embed-amd64" ++ ";" := by decide
  rw [hlit]
  simp only [String.append_assoc]

/-- The empty module path left by a failed resolution is returned unchanged, and the
entry prepended to `PATH` is then `\python-3.14.2-embed-amd64`. -/
theorem GetPluginDir_without_backslash_witness :
    find_last_of "" '\\' = npos ∧
    (∃ s1, GetPluginDir (testHost 0 "") (testSys 0 0 (some "C:\\Windows")) = some ("", s1)) ∧
    ∃ s2, InitPython (testHost 0 "") (testSys 0 0 (some "C:\\Windows")) = some s2 ∧
      s2.env "PATH" = some ("\\python-3.14.2-embed-amd64;C:\\Windows") :=
  ⟨(GetPluginDir_without_backslash (testHost 0 "") (testSys 0 0 (some "C:\\Windows"))
      (by decide) (by decide)).1,
   (GetPluginDir_without_backslash (testHost 0 "") (testSys 0 0 (some "C:\\Windows"))
      (by decide) (by decide)).2.1,
   (GetPluginDir_without_backslash (testHost 0 "") (testSys 0 0 (some "C:\\Windows"))
      (by decide) (by decide)).2.2 "C:\\Windows" rfl⟩

/-! ## The entry point -/

end AEPython
